import Mathlib

/-!
Verification of the NanoLLM VILA chat scripts.

This file gives a shallow embedding of the pure logic of the three chat
drivers (`__main__.py`, `main_with_time_and_json.py`,
`main_with_time_and_json_and_image_http.py`):

* the image-keyed JSON ledger (`_append_json` / `_append_entry_to_json`),
* the key derivation `_json_path_for_image` and helpers (`_ext_of`,
  `_clean_llm_text`, `_parse_owl_raw`),
* the forwarding relay (`_http_post_json`, `_read_image_bytes`),
* the streaming-generation loop with cooperative cancellation,
* the per-request session logic (`process_user_prompt`, the `/describe`
  HTTP handler).

File-system reads, the network, and the inference backend are modelled as
explicit oracle parameters; everything else is translated directly from
the Python source.  Python exceptions are modelled with `Except String`.
-/

/-! ## Python character classes and string primitives -/

/-- Python `str.isspace` / the characters stripped by `str.strip()` and
matched by the regex class `\s` (ASCII whitespace, the separator control characters and
the usual Unicode space characters). -/
def isPySpace (c : Char) : Bool :=
  c = ' ' || c = '\t' || c = '\n' || c = '\r' || c = '\x0b' || c = '\x0c' ||
  c = '\x1c' || c = '\x1d' || c = '\x1e' || c = '\x1f' || c = '\x85' ||
  c = '\xa0' || c = '\u1680' || (0x2000 ≤ c.toNat && c.toNat ≤ 0x200a) ||
  c = '\u2028' || c = '\u2029' || c = '\u202f' || c = '\u205f' || c = '\u3000'

/-- Remove the characters satisfying `p` from both ends of a character
list: Python `str.strip(chars)`. -/
def dropEdge (p : Char → Bool) (l : List Char) : List Char :=
  ((l.dropWhile p).reverse.dropWhile p).reverse

/-- Python `s.strip()` on a character list. -/
def pyStripL (l : List Char) : List Char := dropEdge isPySpace l

/-- Python `s.strip()` on a string. -/
def pyStripS (s : String) : String := String.mk (pyStripL s.toList)

/-- Python `s.strip().strip("'").strip('"')`, the input normalisation
applied throughout the scripts before using a path or URL. -/
def pyStripQuotes (s : String) : String :=
  String.mk (dropEdge (fun c => c = '"')
    (dropEdge (fun c => c = '\x27') (pyStripL s.toList)))

/-- Index of the last occurrence of `c` in `l` (Python `str.rfind` for a
single character, `none` standing for `-1`). -/
def rfindCAux (c : Char) : List Char → Nat → Option Nat → Option Nat
  | [], _, best => best
  | x :: rest, i, best => rfindCAux c rest (i + 1) (if x = c then some i else best)

/-- Index of the last occurrence of `c` in `l`, if any. -/
def rfindC (l : List Char) (c : Char) : Option Nat := rfindCAux c l 0 none

/-- Smallest index `i ≥ i0` at which `pat` occurs in the remaining list
`l` (which is the original list with its first `i0` characters dropped):
Python `str.find(pat, i0)`. -/
def findSubAux (pat : List Char) : List Char → Nat → Option Nat
  | l, i =>
    if pat.isPrefixOf l then some i
    else
      match l with
      | [] => none
      | _ :: t => findSubAux pat t (i + 1)

/-- Python `pat in s` for strings (substring containment). -/
def pyInStr (pat hay : List Char) : Bool := (findSubAux pat hay 0).isSome

/-- ASCII lowercase of a character list, Python `str.lower` for the ASCII
inputs the scripts deal with. -/
def listToLower (l : List Char) : List Char := l.map Char.toLower

/-- Python `s.lower().startswith(("http://", "https://"))`, the URL test
used by every helper in the scripts. -/
def lowerStartsWithHttpS (s : String) : Bool :=
  let l := listToLower s.toList
  ("http://".toList.isPrefixOf l) || ("https://".toList.isPrefixOf l)

/-! ## `os.path` and `urllib.parse` fragments used by the scripts -/

/-- Python `os.path.basename`: everything after the last `/`. -/
def pyBasename (l : List Char) : List Char :=
  match rfindC l '/' with
  | some i => l.drop (i + 1)
  | none => l

/-- Python `posixpath.splitext`: split off the extension at the last dot
of the basename, unless that dot only leads the basename (leading dots
never start an extension). -/
def pySplitext (p : List Char) : List Char × List Char :=
  match rfindC p '.' with
  | none => (p, [])
  | some d =>
    let s : Nat :=
      match rfindC p '/' with
      | none => 0
      | some si => si + 1
    if d ≥ s ∧ ((p.drop s).take (d - s)).any (fun c => c ≠ '.') then
      (p.take d, p.drop d)
    else
      (p, [])

/-- Take characters until one of `stops` is hit; returns the prefix and
the rest (starting with the stop character, when present). -/
def takeUntilAny (stops : List Char) : List Char → List Char × List Char
  | [] => ([], [])
  | c :: rest =>
    if stops.contains c then ([], c :: rest)
    else
      let (a, b) := takeUntilAny stops rest
      (c :: a, b)

/-- The `;params` split of `urllib.parse.urlparse`: drop a `;suffix` of
the last path segment. -/
def splitParams (url : List Char) : List Char :=
  let i :=
    if url.contains '/' then
      match rfindC url '/' with
      | some si => findSubAux [';'] (url.drop si) si
      | none => findSubAux [';'] url 0
    else findSubAux [';'] url 0
  match i with
  | some idx => url.take idx
  | none => url

/-- `urllib.parse.urlparse(p).path` for an input that starts with
`http://` or `https://` (case-insensitively), as guaranteed by every call
site: drop the scheme and netloc, stop at `?` or `#`, split `;params`. -/
def urlPath (l : List Char) : List Char :=
  let afterScheme := (l.dropWhile (fun c => c ≠ ':')).drop 3
  let (_netloc, rest) := takeUntilAny ['/', '?', '#'] afterScheme
  let (pathq, _frag) := takeUntilAny ['#'] rest
  let (path, _query) := takeUntilAny ['?'] pathq
  splitParams path

/-- `_ext_of` from `main_with_time_and_json.py` (and the identical copy in
the HTTP variant): lowercase extension of a path or URL. -/
def extOf (path : String) : String :=
  let p := pyStripQuotes path
  if lowerStartsWithHttpS p then
    String.mk (listToLower (pySplitext (urlPath p.toList)).2)
  else
    String.mk (listToLower (pySplitext p.toList).2)

/-- The fallback image-extension set written out in
`_is_image_path_or_url`; the external `nano_llm.utils.ImageExtensions`
collaborator is modelled by this, the set the code itself falls back to. -/
def imageExtsFallback : List String :=
  [".jpg", ".jpeg", ".png", ".webp", ".bmp", ".tiff", ".tif", ".gif"]

/-- `_is_image_path_or_url` from the json/http variants: non-empty text
whose extension is one of the image extensions. -/
def isImagePathOrUrl (userText : String) : Bool :=
  if userText = "" then false
  else imageExtsFallback.contains (extOf userText)

/-- `_json_path_for_image`: derive the ledger key from an image path or
URL.  A URL maps to `<basename-without-ext>.json` in the working
directory; a local path maps to the same path with its extension replaced
by `.json`. -/
def jsonPathForImage (imagePathOrUrl : String) : String :=
  let p := pyStripQuotes imagePathOrUrl
  if lowerStartsWithHttpS p then
    let base :=
      let b := pyBasename (urlPath p.toList)
      if b = [] then "image".toList else b
    String.mk (pySplitext base).1 ++ ".json"
  else
    String.mk (pySplitext p.toList).1 ++ ".json"

/-! ## JSON values and the image-keyed ledger -/

/-- JSON values as produced by `json.load` / consumed by `json.dump`.
Objects keep their field order, as Python dicts do. -/
inductive Json where
  | null
  | bool (b : Bool)
  | num (n : Int)
  | str (s : String)
  | arr (elems : List Json)
  | obj (fields : List (String × Json))

/-- `Json.isObj` is Python `isinstance(doc, dict)`. -/
def Json.isObj : Json → Bool
  | .obj _ => true
  | _ => false

/-- First binding of key `k` in an object's field list (Python dicts have
unique keys, so this is plain dict lookup). -/
def jlookup (fields : List (String × Json)) (k : String) : Option Json :=
  match fields with
  | [] => none
  | (k', v) :: rest => if k' = k then some v else jlookup rest k

/-- `d[k] = v` on a Python dict: replace the binding in place if the key
exists, otherwise append it at the end. -/
def jset (fields : List (String × Json)) (k : String) (v : Json) :
    List (String × Json) :=
  match fields with
  | [] => [(k, v)]
  | (k', v') :: rest =>
    if k' = k then (k, v) :: rest else (k', v') :: jset rest k v

/-- `d.setdefault(k, v)` on a Python dict. -/
def jsetdefault (fields : List (String × Json)) (k : String) (v : Json) :
    List (String × Json) :=
  if (jlookup fields k).isSome then fields else fields ++ [(k, v)]

/-- What the scripts find on disk at a ledger key: no file, a file that
`json.load` rejects, or a parsed JSON value. -/
inductive FileState where
  | absent
  | corrupt
  | parsed (j : Json)

/-- The fresh ledger document shell both append helpers synthesize, with
a given entries list: `{image_path, model, api, entries}`.  `mv` and `av`
stand for the `getattr(model, ...)` metadata values. -/
def freshDocWith (img : String) (mv av : Json) (es : List Json) : Json :=
  .obj [("image_path", .str img), ("model", mv), ("api", av),
        ("entries", .arr es)]

/-- Python `"entries" in data` for an arbitrary JSON value `data`: key
membership for dicts, element equality for lists, substring test for
strings, and a `TypeError` for the non-iterable values. -/
def pyContainsEntries (data : Json) : Except String Bool :=
  match data with
  | .obj fields => .ok (fields.any (fun kv => kv.1 == "entries"))
  | .arr xs =>
    .ok (xs.any (fun x =>
      match x with
      | .str s => s == "entries"
      | _ => false))
  | .str s => .ok (pyInStr "entries".toList s.toList)
  | _ => .error "TypeError: argument of type is not iterable"

/-- The field list of the fresh ledger document shell. -/
def freshFields (img : String) (mv av : Json) : List (String × Json) :=
  [("image_path", .str img), ("model", mv), ("api", av),
   ("entries", .arr [])]

/-- `doc["entries"].append(record)` followed by returning the document
that `json.dump` writes: appends to a list-valued `entries` field and
raises (`AttributeError`) on anything else. -/
def appendStep (fields : List (String × Json)) (rec : Json) :
    Except String Json :=
  match jlookup fields "entries" with
  | some (.arr xs) => .ok (.obj (jset fields "entries" (.arr (xs ++ [rec]))))
  | _ => .error "AttributeError: append"

/-- `entriesIsList fields` is Python
`isinstance(data.get("entries"), list)` for a dict. -/
def entriesIsList (fields : List (String × Json)) : Bool :=
  match jlookup fields "entries" with
  | some (.arr _) => true
  | _ => false

/-- The replacement decision of `_append_json`:
`"entries" not in data or not isinstance(data.get("entries"), list)`,
with Python's short-circuit (`data.get` is only reached when the
membership test succeeded) and its exceptions. -/
def appendJsonReplaceFlag (data : Json) : Except String Bool :=
  match pyContainsEntries data with
  | .error e => .error e
  | .ok mem =>
    if !mem then .ok true
    else
      match data with
      | .obj fields => .ok (!entriesIsList fields)
      | _ => .error "AttributeError: object has no attribute get"

/-- The tail of `_append_json` once the replacement flag is computed:
keep or replace the loaded document, then append the record. -/
def appendJsonWithFlag (data : Json) (img : String) (mv av : Json)
    (rec : Json) : Except String Json :=
  match appendJsonReplaceFlag data with
  | .error e => .error e
  | .ok repl =>
    match (if repl then Json.obj (freshFields img mv av) else data) with
    | .obj fields => appendStep fields rec
    | _ => .error "AttributeError: append"

/-- `_append_json` from `__main__.py`: load the existing document (an
unreadable file degrades to `{}`), replace it by a fresh shell when
`"entries" not in data or not isinstance(data.get("entries"), list)`,
append the record and return the document that `json.dump` writes.
`.error` models an uncaught Python exception. -/
def appendJson (file : FileState) (img : String) (mv av : Json)
    (rec : Json) : Except String Json :=
  appendJsonWithFlag
    (match file with
     | .parsed j => j
     | _ => .obj [])
    img mv av rec

/-- The document `_append_entry_to_json` works on: the loaded dict, or
the fresh shell when the file was missing, unreadable or not a dict. -/
def appendEntryDoc (doc0 : Option Json) (img : String) (mv av : Json) :
    List (String × Json) :=
  match doc0 with
  | some (.obj fields) => fields
  | _ => freshFields (pyStripQuotes img) mv av

/-- `_append_entry_to_json` from `main_with_time_and_json.py` (the local
part of the HTTP variant is identical): load the existing document
(`None` on failure), replace any non-dict by a fresh shell seeded from
the stripped image path and the model metadata, `setdefault` the entries
list, append the record, and return the written document.  `.error`
models an uncaught Python exception (`doc["entries"].append` on a
non-list). -/
def appendEntryToJson (file : FileState) (img : String) (mv av : Json)
    (rec : Json) : Except String Json :=
  appendStep
    (jsetdefault
      (appendEntryDoc
        (match file with
         | .parsed j => some j
         | _ => none)
        img mv av)
      "entries" (.arr []))
    rec

/-- Whether an `Except` result models a raised Python exception. -/
def isError {α : Type} (e : Except String α) : Bool :=
  match e with
  | .error _ => true
  | .ok _ => false

/-- A concrete ledger entry record, as built by both append helpers
(`{timestamp, prompt, response}`). -/
def sampleRec : Json :=
  .obj [("timestamp", .num 0), ("prompt", .str "describe"),
        ("response", .str "a cat")]

theorem jlookup_append_of_none {fields : List (String × Json)} {k : String}
    (h : jlookup fields k = none) (l : List (String × Json)) :
    jlookup (fields ++ l) k = jlookup l k := by
  induction fields with
  | nil => simp
  | cons kv rest ih =>
    obtain ⟨k', v⟩ := kv
    by_cases hk : k' = k
    · simp [jlookup, hk] at h
    · simp only [jlookup, hk, if_neg hk, List.cons_append] at h ⊢
      exact ih h

theorem jset_append_of_none {fields : List (String × Json)} {k : String}
    (h : jlookup fields k = none) (l : List (String × Json)) (v : Json) :
    jset (fields ++ l) k v = fields ++ jset l k v := by
  induction fields with
  | nil => simp
  | cons kv rest ih =>
    obtain ⟨k', v'⟩ := kv
    by_cases hk : k' = k
    · simp [jlookup, hk] at h
    · simp only [jlookup, if_neg hk] at h
      simp only [List.cons_append, jset, if_neg hk]
      exact congrArg (List.cons (k', v')) (ih h)

theorem jsetdefault_of_none {fields : List (String × Json)} {k : String}
    (h : jlookup fields k = none) (v : Json) :
    jsetdefault fields k v = fields ++ [(k, v)] := by
  simp [jsetdefault, h]

/-- Claim C1 is false as stated: a pre-existing readable JSON document of
the wrong shape (here the object `{"note": "x"}`, which is not a ledger
document) is NOT replaced by `_append_entry_to_json` with a fresh
document seeded from the image and model metadata; the prior content is
merged (the `note` field survives next to the new `entries` list). -/
theorem C1_counterexample :
    appendEntryToJson (.parsed (.obj [("note", .str "x")])) "img.jpg"
        .null .null sampleRec
      = .ok (.obj [("note", .str "x"), ("entries", .arr [sampleRec])]) ∧
    Json.obj [("note", .str "x"), ("entries", .arr [sampleRec])]
      ≠ freshDocWith (pyStripQuotes "img.jpg") .null .null [sampleRec] := by
  constructor
  · rfl
  · intro h
    simp [freshDocWith] at h

theorem jlookup_eq_none_of_any_false {fields : List (String × Json)}
    {k : String} (h : (fields.any (fun kv => kv.1 == k)) = false) :
    jlookup fields k = none := by
  induction fields with
  | nil => rfl
  | cons kv rest ih =>
    simp only [List.any_cons, Bool.or_eq_false_iff] at h
    obtain ⟨h1, h2⟩ := h
    have hk : kv.1 ≠ k := by
      intro he
      simp [he] at h1
    simp [jlookup, hk, ih h2]

theorem appendJsonReplaceFlag_obj (fields : List (String × Json)) :
    appendJsonReplaceFlag (.obj fields) = .ok (!entriesIsList fields) := by
  unfold appendJsonReplaceFlag pyContainsEntries
  cases hany : fields.any (fun kv => kv.1 == "entries") with
  | false =>
    have hnone := jlookup_eq_none_of_any_false hany
    simp only [hany]
    simp [entriesIsList, hnone]
  | true =>
    simp only [hany]
    rfl

theorem appendStep_fresh (img : String) (mv av : Json) (rec : Json) :
    appendStep (freshFields img mv av) rec
      = .ok (freshDocWith img mv av [rec]) := rfl

theorem appendStep_merge {fields : List (String × Json)}
    (h : jlookup fields "entries" = none) (rec : Json) :
    appendStep (fields ++ [("entries", Json.arr [])]) rec
      = .ok (.obj (fields ++ [("entries", .arr [rec])])) := by
  unfold appendStep
  rw [jlookup_append_of_none h]
  show Except.ok (Json.obj (jset (fields ++ [("entries", Json.arr [])])
    "entries" (Json.arr ([] ++ [rec])))) = _
  rw [jset_append_of_none h]
  rfl

theorem appendJsonWithFlag_obj {fields : List (String × Json)}
    (h : entriesIsList fields = false) (img : String) (mv av : Json)
    (rec : Json) :
    appendJsonWithFlag (.obj fields) img mv av rec
      = .ok (freshDocWith img mv av [rec]) := by
  unfold appendJsonWithFlag
  rw [appendJsonReplaceFlag_obj, h]
  exact appendStep_fresh img mv av rec

/-- Claim C1 (corrected): a pre-existing file that is unreadable/corrupt
JSON, missing, or readable JSON that is *not an object* is replaced by
`_append_entry_to_json` with a fresh document (current image path and
model metadata) containing only the new entry, without raising; but a
readable JSON *object* of the wrong shape is merged in place (its fields
survive, an `entries` list is added by `setdefault`), and the call raises
when the existing `entries` value is not a list.  For `_append_json` of
`__main__.py`: corrupt, missing, and object-shaped files without a
list-valued `entries` are all replaced wholesale, but a non-iterable
top-level JSON value (e.g. a number) makes the membership test raise. -/
theorem C1_amended (img : String) (mv av : Json) (rec : Json) :
    (appendEntryToJson .corrupt img mv av rec
      = .ok (freshDocWith (pyStripQuotes img) mv av [rec])) ∧
    (appendEntryToJson .absent img mv av rec
      = .ok (freshDocWith (pyStripQuotes img) mv av [rec])) ∧
    (∀ j : Json, j.isObj = false →
      appendEntryToJson (.parsed j) img mv av rec
        = .ok (freshDocWith (pyStripQuotes img) mv av [rec])) ∧
    (∀ fields : List (String × Json), jlookup fields "entries" = none →
      appendEntryToJson (.parsed (.obj fields)) img mv av rec
        = .ok (.obj (fields ++ [("entries", .arr [rec])]))) ∧
    (isError (appendEntryToJson (.parsed (.obj [("entries", .num 5)]))
        img mv av rec) = true) ∧
    (appendJson .corrupt img mv av rec
      = .ok (freshDocWith img mv av [rec])) ∧
    (appendJson .absent img mv av rec
      = .ok (freshDocWith img mv av [rec])) ∧
    (∀ fields : List (String × Json), entriesIsList fields = false →
      appendJson (.parsed (.obj fields)) img mv av rec
        = .ok (freshDocWith img mv av [rec])) ∧
    (isError (appendJson (.parsed (.num 5)) img mv av rec) = true) := by
  refine ⟨rfl, rfl, ?_, ?_, rfl, rfl, rfl, ?_, rfl⟩
  · intro j h
    cases j <;> first | rfl | simp [Json.isObj] at h
  · intro fields h
    calc appendEntryToJson (.parsed (.obj fields)) img mv av rec
        = appendStep (jsetdefault fields "entries" (.arr [])) rec := rfl
      _ = appendStep (fields ++ [("entries", Json.arr [])]) rec := by
            rw [jsetdefault_of_none h]
      _ = .ok (.obj (fields ++ [("entries", .arr [rec])])) :=
            appendStep_merge h rec
  · intro fields h
    exact appendJsonWithFlag_obj h img mv av rec

/-- Concrete instances of `C1_amended`: a non-dict file is replaced by a
fresh single-entry document, a wrong-shape dict is merged by
`_append_entry_to_json`, and `_append_json` replaces a wrong-shape
dict wholesale. -/
theorem C1_amended_witness :
    (appendEntryToJson (.parsed (.str "garbage")) "i.jpg" .null .null
        sampleRec
      = .ok (freshDocWith (pyStripQuotes "i.jpg") .null .null [sampleRec])) ∧
    (appendEntryToJson (.parsed (.obj [("note", .str "x")])) "i.jpg"
        .null .null sampleRec
      = .ok (.obj ([("note", .str "x")] ++ [("entries", .arr [sampleRec])]))) ∧
    (appendJson (.parsed (.obj [("note", .str "x")])) "i.jpg" .null .null
        sampleRec
      = .ok (freshDocWith "i.jpg" .null .null [sampleRec])) :=
  ⟨(C1_amended "i.jpg" .null .null sampleRec).2.2.1 (.str "garbage") rfl,
   (C1_amended "i.jpg" .null .null sampleRec).2.2.2.1
     [("note", .str "x")] rfl,
   (C1_amended "i.jpg" .null .null sampleRec).2.2.2.2.2.2.2.1
     [("note", .str "x")] rfl⟩

/-- Claim C2: appending two entries in succession to the same image key
yields a document with exactly the two entries in call order, for both
`_append_entry_to_json` and `_append_json`; and starting from a
malformed (unreadable/corrupt JSON) pre-existing file, the replacement
document contains exactly one entry after the next append. -/
theorem C2_two_appends (img : String) (mv av : Json) (r1 r2 : Json) :
    (appendEntryToJson .absent img mv av r1
      = .ok (freshDocWith (pyStripQuotes img) mv av [r1])) ∧
    (appendEntryToJson
        (.parsed (freshDocWith (pyStripQuotes img) mv av [r1]))
        img mv av r2
      = .ok (freshDocWith (pyStripQuotes img) mv av [r1, r2])) ∧
    (appendEntryToJson .corrupt img mv av r1
      = .ok (freshDocWith (pyStripQuotes img) mv av [r1])) ∧
    (appendJson .absent img mv av r1
      = .ok (freshDocWith img mv av [r1])) ∧
    (appendJson (.parsed (freshDocWith img mv av [r1])) img mv av r2
      = .ok (freshDocWith img mv av [r1, r2])) ∧
    (appendJson .corrupt img mv av r1
      = .ok (freshDocWith img mv av [r1])) :=
  ⟨rfl, rfl, rfl, rfl, rfl, rfl⟩

/-! ## `_clean_llm_text` and `_parse_owl_raw` -/

/-- Python `s.replace("</s>", "")`: remove every (non-overlapping,
left-to-right) occurrence of the stop marker. -/
def removeStopMarker : List Char → List Char
  | '<' :: '/' :: 's' :: '>' :: rest => removeStopMarker rest
  | c :: rest => c :: removeStopMarker rest
  | [] => []

/-- The line-break characters recognised by Python `str.splitlines`. -/
def isLineBreakC (c : Char) : Bool :=
  c = '\n' || c = '\r' || c = '\x0b' || c = '\x0c' ||
  c = '\x1c' || c = '\x1d' || c = '\x1e' || c = '\x85' ||
  c = '\u2028' || c = '\u2029'

/-- Worker for `pySplitlines`: accumulate the current line (reversed) and
split at every line break, treating `\r\n` as a single break; a trailing
break does not open a final empty line. -/
def pySplitlinesAux : List Char → List Char → List (List Char)
  | [], acc => [acc.reverse]
  | '\r' :: '\n' :: rest, acc =>
    acc.reverse :: (if rest.isEmpty then [] else pySplitlinesAux rest [])
  | c :: rest, acc =>
    if isLineBreakC c then
      acc.reverse :: (if rest.isEmpty then [] else pySplitlinesAux rest [])
    else
      pySplitlinesAux rest (c :: acc)

/-- Python `str.splitlines`. -/
def pySplitlines (l : List Char) : List (List Char) :=
  if l.isEmpty then [] else pySplitlinesAux l []

/-- The per-line substitution `re.sub(r"^\s*\d+[\.\)]\s*", "", ln)` of
`_clean_llm_text`: drop a leading run of whitespace, one or more ASCII
digits, a dot or closing parenthesis, and trailing whitespace — only
when the whole pattern is present. -/
def stripNumbering (ln : List Char) : List Char :=
  let r1 := ln.dropWhile isPySpace
  let ds := r1.takeWhile Char.isDigit
  let r2 := r1.dropWhile Char.isDigit
  if ds.isEmpty then ln
  else
    match r2 with
    | c :: rest =>
      if c = '.' || c = ')' then rest.dropWhile isPySpace else ln
    | [] => ln

/-- `_clean_llm_text` from `__main__.py`: remove the stop marker, strip,
drop list numbering at line starts, rejoin with a newline and strip
again.  (The `t is None` guard maps `None` to `""`; string inputs go
through the branch modelled here.) -/
def cleanLlmText (t : String) : String :=
  let s := pyStripL (removeStopMarker t.toList)
  let lines := (pySplitlines s).map stripNumbering
  String.mk (pyStripL (List.intercalate ['\n'] lines))

/-- Python `inner.split(",")` on a character list. -/
def splitComma : List Char → List (List Char)
  | [] => [[]]
  | ',' :: rest => [] :: splitComma rest
  | c :: rest =>
    match splitComma rest with
    | [] => [[c]]
    | h :: t => (c :: h) :: t

/-- `_parse_owl_raw` from `__main__.py`: clean the text, locate the first
`[[` and the following `]]`, split the inner region on commas, strip the
pieces, and keep the non-empty ones; any failure yields `[]`. -/
def parseOwlRaw (owl_raw : String) : List String :=
  if owl_raw = "" then []
  else
    let s := (cleanLlmText owl_raw).toList
    match findSubAux ['[', '['] s 0 with
    | none => []
    | some start =>
      match findSubAux [']', ']'] (s.drop (start + 2)) (start + 2) with
      | none => []
      | some e =>
        let inner := (s.drop (start + 2)).take (e - (start + 2))
        (((splitComma inner).map pyStripL).filter
          (fun x => x ≠ [])).map String.mk

theorem head?_dropWhile_not {α : Type} (p : α → Bool) :
    ∀ (l : List α) (c : α), (l.dropWhile p).head? = some c → p c = false := by
  intro l
  induction l with
  | nil => intro c h; simp at h
  | cons x t ih =>
    intro c h
    rw [List.dropWhile_cons] at h
    by_cases hx : p x
    · rw [if_pos hx] at h
      exact ih c h
    · rw [if_neg hx] at h
      simp only [List.head?_cons, Option.some.injEq] at h
      subst h
      simpa using hx

theorem getLast?_dropWhile {α : Type} (p : α → Bool) :
    ∀ (l : List α) (c : α),
      (l.dropWhile p).getLast? = some c → l.getLast? = some c := by
  intro l
  induction l with
  | nil => intro c h; simp at h
  | cons x t ih =>
    intro c h
    rw [List.dropWhile_cons] at h
    by_cases hx : p x
    · rw [if_pos hx] at h
      have ht := ih c h
      rw [List.getLast?_cons, ht]
      rfl
    · rw [if_neg hx] at h
      exact h

theorem dropEdge_head_not (p : Char → Bool) (l : List Char) (c : Char)
    (h : (dropEdge p l).head? = some c) : p c = false := by
  unfold dropEdge at h
  rw [List.head?_reverse] at h
  have h2 := getLast?_dropWhile p _ _ h
  rw [List.getLast?_reverse] at h2
  exact head?_dropWhile_not p _ _ h2

theorem dropEdge_getLast_not (p : Char → Bool) (l : List Char) (c : Char)
    (h : (dropEdge p l).getLast? = some c) : p c = false := by
  unfold dropEdge at h
  rw [List.getLast?_reverse] at h
  exact head?_dropWhile_not p _ _ h

/-- A character list with no leading and no trailing Python whitespace. -/
def noEdgeSpaceB (l : List Char) : Bool :=
  (match l.head? with
   | some c => !isPySpace c
   | none => true) &&
  (match l.getLast? with
   | some c => !isPySpace c
   | none => true)

theorem noEdgeSpaceB_pyStripL (y : List Char) :
    noEdgeSpaceB (pyStripL y) = true := by
  unfold noEdgeSpaceB pyStripL
  cases hh : (dropEdge isPySpace y).head? with
  | none =>
    cases hl : (dropEdge isPySpace y).getLast? with
    | none => rfl
    | some c => simp [dropEdge_getLast_not isPySpace y c hl]
  | some c =>
    have h1 := dropEdge_head_not isPySpace y c hh
    cases hl : (dropEdge isPySpace y).getLast? with
    | none => simp [h1]
    | some d => simp [h1, dropEdge_getLast_not isPySpace y d hl]

/-- Claim C10: `_parse_owl_raw` returns the comma-separated,
whitespace-trimmed, non-empty substrings between the first `[[` and the
next `]]` of the cleaned text, in order; it returns `[]` when the input
is empty or either delimiter is absent; and every element of the result
is non-empty with no leading or trailing whitespace. -/
theorem C10_parse_owl (s : String) :
    (∀ x ∈ parseOwlRaw s, x ≠ "" ∧ noEdgeSpaceB x.toList = true) ∧
    (s = "" → parseOwlRaw s = []) ∧
    (findSubAux ['[', '['] (cleanLlmText s).toList 0 = none →
      parseOwlRaw s = []) ∧
    (∀ i, findSubAux ['[', '['] (cleanLlmText s).toList 0 = some i →
      findSubAux [']', ']'] ((cleanLlmText s).toList.drop (i + 2))
          (i + 2) = none →
      parseOwlRaw s = []) ∧
    (∀ i j, findSubAux ['[', '['] (cleanLlmText s).toList 0 = some i →
      findSubAux [']', ']'] ((cleanLlmText s).toList.drop (i + 2))
          (i + 2) = some j →
      parseOwlRaw s =
        (((splitComma (((cleanLlmText s).toList.drop (i + 2)).take
              (j - (i + 2)))).map pyStripL).filter
          (fun x => x ≠ [])).map String.mk) := by
  refine ⟨?_, ?_, ?_, ?_, ?_⟩
  · intro x hx
    by_cases hs : s = ""
    · simp [hs, parseOwlRaw] at hx
    · simp only [parseOwlRaw, if_neg hs] at hx
      cases h1 : findSubAux ['[', '['] (cleanLlmText s).toList 0 with
      | none => simp only [h1] at hx; simp at hx
      | some i =>
        simp only [h1] at hx
        cases h2 : findSubAux [']', ']']
            ((cleanLlmText s).toList.drop (i + 2)) (i + 2) with
        | none => simp only [h2] at hx; simp at hx
        | some j =>
          simp only [h2] at hx
          rw [List.mem_map] at hx
          obtain ⟨l, hl, rfl⟩ := hx
          rw [List.mem_filter] at hl
          obtain ⟨hl1, hl2⟩ := hl
          rw [List.mem_map] at hl1
          obtain ⟨y, _, rfl⟩ := hl1
          simp only [decide_eq_true_eq] at hl2
          refine ⟨?_, ?_⟩
          · intro he
            apply hl2
            have hd : (String.mk (pyStripL y)).data = ("" : String).data :=
              congrArg String.data he
            simpa using hd
          · show noEdgeSpaceB (pyStripL y) = true
            exact noEdgeSpaceB_pyStripL y
  · intro h
    subst h
    rfl
  · intro h1
    by_cases hs : s = ""
    · subst hs; rfl
    · simp only [parseOwlRaw, if_neg hs, h1]
  · intro i h1 h2
    by_cases hs : s = ""
    · subst hs; rfl
    · simp only [parseOwlRaw, if_neg hs, h1, h2]
  · intro i j h1 h2
    have hs : ¬s = "" := by
      intro he
      subst he
      have hnone : findSubAux ['[', '['] (cleanLlmText "").toList 0
          = none := rfl
      rw [hnone] at h1
      cases h1
    simp only [parseOwlRaw, if_neg hs, h1, h2]

/-- Concrete instances of `C10_parse_owl`: a parsed element is non-empty
and trimmed, the empty input and delimiter-free inputs give `[]`, and a
well-formed OWL line parses to its comma-separated items. -/
theorem C10_witness :
    ("a drone" ≠ "" ∧ noEdgeSpaceB "a drone".toList = true) ∧
    parseOwlRaw "" = [] ∧
    parseOwlRaw "no delimiters here" = [] ∧
    parseOwlRaw "[[a drone, a propeller]]" = ["a drone", "a propeller"] := by
  refine ⟨?_, ?_, ?_, ?_⟩
  · exact (C10_parse_owl "[[a drone, a propeller]]").1 "a drone" (by decide)
  · exact (C10_parse_owl "").2.1 rfl
  · exact (C10_parse_owl "no delimiters here").2.2.1 (by decide)
  · have h := (C10_parse_owl "[[a drone, a propeller]]").2.2.2.2 0 22
      (by decide) (by decide)
    exact h.trans (by decide)

/-! ## The streaming generation loop and cooperative cancellation -/

/-- Result of the token-streaming loop: the accumulated reply text, the
number of fragments consumed, and whether `stream.stop()` was invoked. -/
structure StreamOutcome where
  text : String
  consumed : Nat
  stopCalled : Bool
deriving DecidableEq, Repr

/-- Worker for `streamLoop`: `n` fragments already consumed, `acc` text
accumulated so far.  The interrupt flag is sampled after each fragment is
consumed (`for token in stream: ... if interrupt: stream.stop(); break`),
so `interrupt k` says whether the external interrupt is set when `k`
fragments have been consumed. -/
def streamLoopAux (interrupt : Nat → Bool) :
    List String → Nat → String → StreamOutcome
  | [], n, acc => ⟨acc, n, false⟩
  | f :: rest, n, acc =>
    let acc2 := acc ++ f
    let n2 := n + 1
    if interrupt n2 then ⟨acc2, n2, true⟩
    else streamLoopAux interrupt rest n2 acc2

/-- The streaming loops of all three scripts (identical modulo variable
names): consume fragments in order, accumulate `reply_text`, and on the
interrupt flag call `stream.stop()` and break. -/
def streamLoop (frags : List String) (interrupt : Nat → Bool) :
    StreamOutcome :=
  streamLoopAux interrupt frags 0 ""

/-- Concatenation of a fragment list, the reference value for "the text
committed is the concatenation of the consumed fragments". -/
def concatStrings : List String → String
  | [] => ""
  | f :: rest => f ++ concatStrings rest

/-- The bot turn committed by `main_with_time_and_json.py` (line 246) and
the HTTP variant (line 360): the raw accumulated `reply_text`. -/
def jsonVariantBotTurn (frags : List String) (interrupt : Nat → Bool) :
    String :=
  (streamLoop frags interrupt).text

/-- The bot turn committed by `__main__.py` (lines 347-348):
`reply_text = _clean_llm_text(reply_text); chat.append("bot", reply_text)`. -/
def mainVariantBotTurn (frags : List String) (interrupt : Nat → Bool) :
    String :=
  cleanLlmText (streamLoop frags interrupt).text

/-- An interrupt flag that first becomes set when exactly one fragment
has been consumed. -/
def interruptAtOne : Nat → Bool := fun k => k == 1

/-- Claim C3 is false as stated for `__main__.py`: cancelling after one
consumed fragment `"hi</s>"` commits the cleaned text `"hi"` as the bot
turn, not the exact concatenation `"hi</s>"` of the consumed fragments. -/
theorem C3_counterexample :
    mainVariantBotTurn ["hi</s>"] interruptAtOne = "hi" ∧
    concatStrings (["hi</s>"].take 1) = "hi</s>" ∧
    mainVariantBotTurn ["hi</s>"] interruptAtOne
      ≠ concatStrings (["hi</s>"].take 1) := by
  exact ⟨rfl, rfl, by decide⟩

theorem streamLoopAux_cancel (interrupt : Nat → Bool) (N : Nat)
    (hN : interrupt N = true) :
    ∀ (frags : List String) (n : Nat) (acc : String),
      n < N → N ≤ n + frags.length →
      (∀ k, n < k → k < N → interrupt k = false) →
      streamLoopAux interrupt frags n acc
        = ⟨acc ++ concatStrings (frags.take (N - n)), N, true⟩ := by
  intro frags
  induction frags with
  | nil =>
    intro n acc hlt hle _
    simp only [List.length_nil, Nat.add_zero] at hle
    omega
  | cons f rest ih =>
    intro n acc hlt hle h3
    show (if interrupt (n + 1) then
            StreamOutcome.mk (acc ++ f) (n + 1) true
          else streamLoopAux interrupt rest (n + 1) (acc ++ f)) = _
    by_cases hc : n + 1 = N
    · rw [hc, hN, if_pos rfl]
      have ht : (f :: rest).take (N - n) = [f] := by
        have : N - n = 1 := by omega
        rw [this]
        rfl
      rw [ht]
      have hconc : acc ++ f = acc ++ concatStrings [f] := by
        show acc ++ f = acc ++ (f ++ "")
        rw [String.append_empty]
      rw [hconc]
    · have hlt2 : n + 1 < N := by omega
      have hf : interrupt (n + 1) = false := h3 (n + 1) (by omega) hlt2
      rw [hf, if_neg (by simp)]
      rw [ih (n + 1) (acc ++ f) hlt2
        (by simpa [Nat.add_comm, Nat.add_left_comm] using hle)
        (fun k hk1 hk2 => h3 k (by omega) hk2)]
      have hsplit : (f :: rest).take (N - n) = f :: rest.take (N - (n + 1)) := by
        have : N - n = (N - (n + 1)) + 1 := by omega
        rw [this]
        rfl
      rw [hsplit]
      show StreamOutcome.mk ((acc ++ f) ++ concatStrings (rest.take (N - (n + 1)))) N true
        = StreamOutcome.mk (acc ++ (f ++ concatStrings (rest.take (N - (n + 1))))) N true
      rw [String.append_assoc]

/-- Claim C3 (corrected): when a streaming generation is cancelled after
consuming `N ≥ 1` fragments (the interrupt flag is clear before the
`N`-th fragment boundary and set at it), the loop consumes exactly `N`
fragments, invokes the stream's stop operation, and accumulates exactly
the concatenation of those `N` fragments.
`main_with_time_and_json.py` and the HTTP variant commit exactly that
concatenation as the bot turn; `__main__.py` however commits the
`_clean_llm_text`-cleaned concatenation (stop-marker, list numbering and
surrounding whitespace removed), which can differ from the raw
concatenation and can even be empty. -/
theorem C3_amended (frags : List String) (interrupt : Nat → Bool) (N : Nat)
    (h1 : 1 ≤ N) (h2 : N ≤ frags.length)
    (h3 : ∀ k, 1 ≤ k → k < N → interrupt k = false)
    (h4 : interrupt N = true) :
    streamLoop frags interrupt
      = ⟨concatStrings (frags.take N), N, true⟩ ∧
    jsonVariantBotTurn frags interrupt = concatStrings (frags.take N) ∧
    mainVariantBotTurn frags interrupt
      = cleanLlmText (concatStrings (frags.take N)) := by
  have key := streamLoopAux_cancel interrupt N h4 frags 0 ""
    (by omega) (by simpa using h2)
    (fun k hk1 hk2 => h3 k (by omega) hk2)
  have key2 : streamLoop frags interrupt
      = ⟨concatStrings (frags.take N), N, true⟩ := by
    rw [streamLoop, key, Nat.sub_zero]
    show StreamOutcome.mk ("" ++ concatStrings (frags.take N)) N true = _
    rfl
  refine ⟨key2, ?_, ?_⟩
  · rw [jsonVariantBotTurn, key2]
  · rw [mainVariantBotTurn, key2]

/-- An interrupt flag that first becomes set when exactly two fragments
have been consumed. -/
def interruptAtTwo : Nat → Bool := fun k => k == 2

/-- Concrete instance of `C3_amended`: cancelling after two of three
fragments commits exactly their concatenation, consumes exactly two
fragments, and calls stop. -/
theorem C3_amended_witness :
    streamLoop ["a ", "b", "c"] interruptAtTwo = ⟨"a b", 2, true⟩ ∧
    jsonVariantBotTurn ["a ", "b", "c"] interruptAtTwo = "a b" := by
  have h := C3_amended ["a ", "b", "c"] interruptAtTwo 2 (by decide)
    (by decide)
    (fun k hk1 hk2 => by
      have hk : k = 1 := by omega
      subst hk
      rfl)
    (by decide)
  exact ⟨h.1.trans (by decide), h.2.1.trans (by decide)⟩

/-! ## The forwarding relay: HTTP client, image attachment, ingest -/

/-- The environment's answer to one `urllib.request.urlopen` POST: a
successful response with a status, an `HTTPError` carrying a status, or
any other (transport) exception. -/
inductive HttpEnv where
  | ok (status : Int) (body : String)
  | httpError (code : Int) (body : String)
  | transportError (msg : String)

/-- `_http_post_json` from the HTTP variant: returns
`(status_code, response_text)`; an `HTTPError` yields its code and body,
any other exception (network/timeout/DNS) yields `(-1, str(e))`. -/
def httpPostJson (env : HttpEnv) : Int × String :=
  match env with
  | .ok s b => (s, b)
  | .httpError c b => (c, b)
  | .transportError m => (-1, m)

/-- The success test of the forwarding code:
`if status in (200, 201)` — a cyan "posted" log line; anything else a
yellow warning. -/
def forwardSuccess (status : Int) : Bool :=
  status == 200 || status == 201

/-- The environment's answer to the read in `_read_image_bytes`: the
readable content of the source (the script reads at most
`max_bytes + 1` of it), or any exception (missing file, network error). -/
inductive ReadSource where
  | readable (content : List UInt8)
  | unreadable (msg : String)

/-- The base64 alphabet used by `base64.b64encode`. -/
def base64Chars : String :=
  "ABCDEFGHIJKLMNOPQRSTUVWXYZabcdefghijklmnopqrstuvwxyz0123456789+/"

/-- One base64 output character. -/
def b64Char (n : Nat) : Char := base64Chars.toList.getD n 'A'

/-- `base64.b64encode(...)` producing an ASCII string. -/
def base64Encode : List UInt8 → String
  | [] => ""
  | [a] =>
    let x := a.toNat
    String.mk [b64Char (x / 4), b64Char ((x % 4) * 16), '=', '=']
  | [a, b] =>
    let x := a.toNat
    let y := b.toNat
    String.mk [b64Char (x / 4), b64Char ((x % 4) * 16 + y / 16),
               b64Char ((y % 16) * 4), '=']
  | a :: b :: c :: rest =>
    let x := a.toNat
    let y := b.toNat
    let z := c.toNat
    String.mk [b64Char (x / 4), b64Char ((x % 4) * 16 + y / 16),
               b64Char ((y % 16) * 4 + z / 64), b64Char (z % 64)]
      ++ base64Encode rest

/-- `_read_image_bytes` from the HTTP variant: read at most
`maxBytes + 1` bytes from the source, fail on oversize, derive the
basename and extension from the (stripped) path or URL, and return
`([], "image", ".jpg")` on any failure.  The local/URL read itself is
the `src` oracle; the basename differs between the URL branch (URL path
basename) and the local branch (path basename). -/
def readImageBytes (pathOrUrl : String) (src : ReadSource)
    (maxBytes : Nat := 25 * 1024 * 1024) : List UInt8 × String × String :=
  let p := pyStripQuotes pathOrUrl
  match src with
  | .unreadable _ => ([], "image", ".jpg")
  | .readable content =>
    let data := content.take (maxBytes + 1)
    if data.length > maxBytes then ([], "image", ".jpg")
    else
      let base0 :=
        if lowerStartsWithHttpS p then
          let b := pyBasename (urlPath p.toList)
          if b = [] then "image".toList else b
        else
          let b := pyBasename p.toList
          if b = [] then "image".toList else b
      let base := (pySplitext base0).1
      let ext := extOf pathOrUrl
      (data, String.mk base, if ext = "" then ".jpg" else ext)

/-- The attachment step of the forwarding code: `out_doc = dict(doc)`
plus, when the image bytes are non-empty (`if img_bytes:`), the
`_image_basename`, `_image_ext` and `_image_b64` fields. -/
def attachImage (fields : List (String × Json)) (bytes : List UInt8)
    (base ext : String) : List (String × Json) :=
  if bytes.isEmpty then fields
  else
    jset (jset (jset fields "_image_basename" (.str base))
      "_image_ext" (.str ext)) "_image_b64" (.str (base64Encode bytes))

/-- Outcome of one `_append_entry_to_json` call of the HTTP variant:
the locally persisted document (or the exception that escaped), and the
forwarding attempt, if one was made: the document actually POSTed, the
success flag of the status test, and the status. -/
structure HttpAppendResult where
  localDoc : Except String Json
  forward : Option (Json × Bool × Int)

/-- `_append_entry_to_json` from
`main_with_time_and_json_and_image_http.py`: persist locally exactly as
`main_with_time_and_json.py` does, then — only if a forward URL is
configured — read the image bytes, attach them when non-empty, POST the
document and classify the status.  The forward never alters the local
document, which was already written. -/
def appendEntryToJsonHttp (file : FileState) (img : String) (mv av : Json)
    (rec : Json) (forwardUrl : String) (src : ReadSource) (env : HttpEnv) :
    HttpAppendResult :=
  match appendEntryToJson file img mv av rec with
  | .error e => ⟨.error e, none⟩
  | .ok doc =>
    if pyStripS forwardUrl = "" then ⟨.ok doc, none⟩
    else
      let r := readImageBytes img src
      let outDoc : Json :=
        match doc with
        | .obj fields => .obj (attachImage fields r.1 r.2.1 r.2.2)
        | j => j
      let status := (httpPostJson env).1
      ⟨.ok doc, some (outDoc, forwardSuccess status, status)⟩

/-- Claim C4 is false as stated: HTTP status 204 is a 2xx status, yet
the forwarding code (`if status in (200, 201)`) classifies it as a
failure and logs the warning branch.  The local ledger document is
nevertheless written and contains the new entry. -/
theorem C4_counterexample :
    (appendEntryToJsonHttp .absent "cat.jpg" .null .null sampleRec
        "http://r/ingest" (.unreadable "refused") (.ok 204 "no content")).forward
      = some (freshDocWith "cat.jpg" .null .null [sampleRec], false, 204) ∧
    (appendEntryToJsonHttp .absent "cat.jpg" .null .null sampleRec
        "http://r/ingest" (.unreadable "refused") (.ok 204 "no content")).localDoc
      = .ok (freshDocWith "cat.jpg" .null .null [sampleRec]) ∧
    ((200 : Int) ≤ 204 ∧ (204 : Int) < 300) := by
  exact ⟨rfl, rfl, by constructor <;> decide⟩

/-- Claim C4 (corrected): the forwarding attempt classifies exactly the
statuses 200 and 201 as success — not every 2xx status; every other
status (and status `-1`, which `_http_post_json` returns for transport
failures such as timeouts, DNS errors or refused connections) is only
logged as a warning.  In every case the local ledger write is the plain
`_append_entry_to_json` result, already completed before the forward is
attempted and unaffected by the image read and the HTTP outcome. -/
theorem C4_amended (file : FileState) (img : String) (mv av : Json)
    (rec : Json) (url : String) (src : ReadSource) (env : HttpEnv) :
    ((appendEntryToJsonHttp file img mv av rec url src env).localDoc
      = appendEntryToJson file img mv av rec) ∧
    (∀ od ok st,
      (appendEntryToJsonHttp file img mv av rec url src env).forward
        = some (od, ok, st) →
      (ok = true ↔ (st = 200 ∨ st = 201)) ∧ st = (httpPostJson env).1) ∧
    (∀ s : Int, forwardSuccess s = true ↔ (s = 200 ∨ s = 201)) := by
  refine ⟨?_, ?_, ?_⟩
  · unfold appendEntryToJsonHttp
    cases h : appendEntryToJson file img mv av rec with
    | error e => rfl
    | ok doc =>
      by_cases hu : pyStripS url = ""
      · simp [hu]
      · simp [hu]
  · intro od ok st hfwd
    unfold appendEntryToJsonHttp at hfwd
    cases h : appendEntryToJson file img mv av rec with
    | error e => rw [h] at hfwd; cases hfwd
    | ok doc =>
      rw [h] at hfwd
      by_cases hu : pyStripS url = ""
      · simp [hu] at hfwd
      · simp only [if_neg hu] at hfwd
        simp only [Option.some.injEq, Prod.mk.injEq] at hfwd
        obtain ⟨-, h2, h3⟩ := hfwd
        subst h2
        subst h3
        refine ⟨?_, rfl⟩
        simp [forwardSuccess]
  · intro s
    simp [forwardSuccess]

/-- Concrete instance of `C4_amended`: with a transport failure
(status `-1`) the forward is classified as a warning and the local
document is still the completed append result. -/
theorem C4_amended_witness :
    ((appendEntryToJsonHttp .absent "cat.jpg" .null .null sampleRec
        "http://r/ingest" (.unreadable "refused")
        (.transportError "timeout")).localDoc
      = appendEntryToJson .absent "cat.jpg" .null .null sampleRec) ∧
    ((false : Bool) = true ↔ ((-1 : Int) = 200 ∨ (-1 : Int) = 201)) := by
  refine ⟨(C4_amended .absent "cat.jpg" .null .null sampleRec
    "http://r/ingest" (.unreadable "refused")
    (.transportError "timeout")).1, ?_⟩
  have h := ((C4_amended .absent "cat.jpg" .null .null sampleRec
    "http://r/ingest" (.unreadable "refused")
    (.transportError "timeout")).2.1
    (freshDocWith "cat.jpg" .null .null [sampleRec]) false (-1) rfl).1
  exact h

/-- Claim C9: `_read_image_bytes` is total (the model returns a triple
for every path and read outcome; the whole body sits in a
`try/except`), the returned payload never exceeds `maxBytes` (default
`25 * 1024 * 1024` as in the source), any failure — unreadable source or
oversized content (network errors are `unreadable` outcomes of the read
oracle) — yields the fallback `(b"", "image", ".jpg")`, and empty bytes
make the attachment step leave the forwarded document unchanged
(`if img_bytes:` skips the `_image_*` fields). -/
theorem C9_read_image_bytes (p : String) (src : ReadSource)
    (maxBytes : Nat) (fields : List (String × Json)) :
    ((readImageBytes p src maxBytes).1.length ≤ maxBytes) ∧
    (∀ msg, src = .unreadable msg →
      readImageBytes p src maxBytes = ([], "image", ".jpg")) ∧
    (∀ content, src = .readable content → maxBytes < content.length →
      readImageBytes p src maxBytes = ([], "image", ".jpg")) ∧
    (attachImage fields [] "image" ".jpg" = fields) ∧
    (∀ msg,
      attachImage fields
        (readImageBytes p (.unreadable msg) maxBytes).1
        (readImageBytes p (.unreadable msg) maxBytes).2.1
        (readImageBytes p (.unreadable msg) maxBytes).2.2 = fields) := by
  refine ⟨?_, ?_, ?_, rfl, fun msg => rfl⟩
  · unfold readImageBytes
    cases src with
    | unreadable m => simp
    | readable content =>
      by_cases hlen : maxBytes < content.length
      · simp [hlen]
      · simp [hlen, List.length_take]
        omega
  · intro msg h
    subst h
    rfl
  · intro content h hlt
    subst h
    simp [readImageBytes, hlt]

/-- Concrete instances of `C9_read_image_bytes`: an unreadable source
and an oversized read both yield the fallback triple, whose empty bytes
leave the forwarded document without attachment fields. -/
theorem C9_witness :
    (readImageBytes "cat.jpg" (.unreadable "denied") 2
      = ([], "image", ".jpg")) ∧
    (readImageBytes "cat.jpg" (.readable [7, 7, 7, 7]) 2
      = ([], "image", ".jpg")) ∧
    (attachImage [("k", .null)] [] "image" ".jpg" = [("k", .null)]) :=
  ⟨(C9_read_image_bytes "cat.jpg" (.unreadable "denied") 2 []).2.1
      "denied" rfl,
   (C9_read_image_bytes "cat.jpg" (.readable [7, 7, 7, 7]) 2 []).2.2.1
      [7, 7, 7, 7] rfl (by decide),
   (C9_read_image_bytes "cat.jpg" (.unreadable "x") 2
      [("k", .null)]).2.2.2.1⟩

/-! ## The ledger write as a file-system trace -/

/-- The file-system operations the persistence code can perform.
`openTrunc` is `open(path, "w")` (which truncates an existing file);
`writeDoc` is `json.dump(doc, f)` into the file opened at `path`;
`rename` is `os.rename`/`os.replace` (present in the vocabulary so that
the atomic temp-file-and-rename pattern is expressible, though the
scripts never call it). -/
inductive FsOp where
  | openTrunc (path : String)
  | writeDoc (path : String) (doc : Json)
  | rename (src dst : String)

/-- The write step shared by `_append_json` and both
`_append_entry_to_json` variants:
`with open(json_path, "w", encoding="utf-8") as f: json.dump(doc, f)` —
a direct truncating open of the ledger key followed by the dump. -/
def writeLedgerTrace (jsonPath : String) (doc : Json) : List FsOp :=
  [.openTrunc jsonPath, .writeDoc jsonPath doc]

/-- Whether a trace contains a rename into `path` — the signature of the
write-to-temporary-location-then-rename pattern the claim describes. -/
def usesRenameInto (trace : List FsOp) (path : String) : Bool :=
  trace.any fun op =>
    match op with
    | .rename _ dst => dst == path
    | _ => false

/-- Whether a trace opens-for-truncation or writes the final path
directly — the observable moment at which a concurrent reader can see a
truncated or partially written file. -/
def touchesDirectly (trace : List FsOp) (path : String) : Bool :=
  trace.any fun op =>
    match op with
    | .openTrunc q => q == path
    | .writeDoc q _ => q == path
    | _ => false

/-- Claim C5 is false as stated: the ledger rewrite performs no rename
into the ledger key and instead opens the key itself for truncation
before writing — a reader between the two operations observes a
truncated (half-written) file. -/
theorem C5_counterexample :
    usesRenameInto
        (writeLedgerTrace "cat.json"
          (freshDocWith "cat.jpg" .null .null [sampleRec])) "cat.json"
      = false ∧
    touchesDirectly
        (writeLedgerTrace "cat.json"
          (freshDocWith "cat.jpg" .null .null [sampleRec])) "cat.json"
      = true ∧
    writeLedgerTrace "cat.json" (freshDocWith "cat.jpg" .null .null [sampleRec])
      = [.openTrunc "cat.json",
         .writeDoc "cat.json" (freshDocWith "cat.jpg" .null .null [sampleRec])] :=
  ⟨rfl, rfl, rfl⟩

/-- Claim C5 (corrected): `append_entry` rewrites the whole ledger
document with a direct in-place `open(json_path, "w")` followed by
`json.dump` at the ledger key; no temporary location and no rename are
involved, so the write is not atomic from a reader's perspective. -/
theorem C5_amended (path : String) (doc : Json) :
    writeLedgerTrace path doc = [.openTrunc path, .writeDoc path doc] ∧
    usesRenameInto (writeLedgerTrace path doc) path = false ∧
    touchesDirectly (writeLedgerTrace path doc) path = true := by
  refine ⟨rfl, rfl, ?_⟩
  simp [touchesDirectly, writeLedgerTrace]

/-! ## The session: turns, one request cycle, the describe endpoint -/

/-- One dialogue turn of the chat history. -/
structure Turn where
  role : String
  content : String
deriving DecidableEq, Repr

/-- The mutable state the request cycle touches: the chat history's
appended turns and the tracked `last_image_path`. -/
structure SessionState where
  turns : List Turn
  lastImage : Option String
deriving DecidableEq, Repr

/-- The `last_image_path` update at the top of `process_user_prompt`:
when the prompt looks like an image path/URL, remember its stripped
form. -/
def updateLastImage (st : SessionState) (prompt : String) : Option String :=
  if isImagePathOrUrl prompt then some (pyStripQuotes prompt)
  else st.lastImage

/-- `process_user_prompt` from the HTTP variant.  The inference backend
is the oracle `gen`: `gen k` is the outcome of the `(k + 1)`-th
`model.generate` call of the session (`.error` models a raised
exception, `.ok` the reply text collected from the stream).  Returns the
new state, the returned reply string, and the updated call counter.  The
embedding/timing and the JSON-saving side effects (modelled separately
by `appendEntryToJsonHttp`) do not alter the turn or reply values. -/
def processUserPrompt (st : SessionState)
    (gen : Nat → Except String String) (k : Nat) (prompt : String)
    (generate : Bool) : SessionState × String × Nat :=
  let lastIm := updateLastImage st prompt
  let turns1 := st.turns ++ [⟨"user", prompt⟩]
  if generate = false then (⟨turns1, lastIm⟩, "", k)
  else
    match gen k with
    | .error e =>
      (⟨turns1 ++ [⟨"bot", "[error] generation failed: " ++ e⟩], lastIm⟩,
       "[error] generation failed: " ++ e, k + 1)
    | .ok replyText =>
      (⟨turns1 ++ [⟨"bot", replyText⟩], lastIm⟩, replyText, k + 1)

/-- The generation step of `main_with_time_and_json.py` (lines 191-246):
`model.generate` is NOT wrapped in `try/except`, so a raised backend
exception propagates out of the loop body; only on success is the
collected reply appended as the bot turn. -/
def generateStepNoCatch (st : SessionState)
    (gen : Except String String) : Except String SessionState :=
  match gen with
  | .error e => .error e
  | .ok replyText =>
    .ok ⟨st.turns ++ [⟨"bot", replyText⟩], st.lastImage⟩

/-- The JSON body of a `/describe` response. -/
structure DescribeResponse where
  ok : Bool
  image_path : String
  auto_prompt : String
  response_describe : String
  response_question : Option String
deriving DecidableEq, Repr

/-- The `/describe` handler of the HTTP variant: missing/blank
`image_path` is rejected with a 400 before any side effect; otherwise
the session is hard-reset, the image turn is appended without
generating, the fixed prompt `"Describe the image"` is generated, and a
non-blank caller question is generated as a second turn.  Returns the
HTTP status, the response body (absent for the 400), and the session
state after the request. -/
def describe (st : SessionState) (gen : Nat → Except String String)
    (imagePath? : Option String) (question? : Option String) :
    Nat × Option DescribeResponse × SessionState :=
  let image_path := pyStripS (imagePath?.getD "")
  let question := pyStripS (question?.getD "")
  if image_path = "" then (400, none, st)
  else
    let st0 : SessionState := ⟨[], none⟩
    let r1 := processUserPrompt st0 gen 0 image_path false
    let r2 := processUserPrompt r1.1 gen r1.2.2 "Describe the image" true
    if question = "" then
      (200,
       some ⟨true, image_path, "Describe the image", r2.2.1, none⟩,
       r2.1)
    else
      let r3 := processUserPrompt r2.1 gen r2.2.2 question true
      (200,
       some ⟨true, image_path, "Describe the image", r2.2.1, some r3.2.1⟩,
       r3.1)

/-- The reply text `process_user_prompt` produces for the `(k + 1)`-th
backend call: the collected text on success, the error-marker text when
the backend raised. -/
def replyOf (gen : Nat → Except String String) (k : Nat) : String :=
  match gen k with
  | .ok r => r
  | .error e => "[error] generation failed: " ++ e

theorem pyStripS_empty : pyStripS "" = "" := rfl

theorem isImagePathOrUrl_describePrompt :
    isImagePathOrUrl "Describe the image" = false := by decide

/-- Claim C7: `POST /describe` without a usable `image_path` answers 400
with the session untouched; with an `image_path` and no question it
hard-resets the session, appends the image turn without generating,
generates the fixed description prompt, and answers 200 with
`{ok := true, image_path, auto_prompt, response_describe,
response_question := none}` — `response_describe` is a string (never
null) and `response_question` is null; a non-blank question is generated
as a second turn and returned in `response_question`. -/
theorem C7_describe (st : SessionState) (gen : Nat → Except String String)
    (ip q : String) :
    (describe st gen none none = (400, none, st)) ∧
    (pyStripS ip = "" → describe st gen (some ip) none = (400, none, st)) ∧
    (pyStripS ip ≠ "" →
      describe st gen (some ip) none =
        (200,
         some ⟨true, pyStripS ip, "Describe the image", replyOf gen 0, none⟩,
         ⟨[⟨"user", pyStripS ip⟩, ⟨"user", "Describe the image"⟩,
           ⟨"bot", replyOf gen 0⟩],
          updateLastImage ⟨[], none⟩ (pyStripS ip)⟩)) ∧
    (pyStripS ip ≠ "" → pyStripS q ≠ "" →
      describe st gen (some ip) (some q) =
        (200,
         some ⟨true, pyStripS ip, "Describe the image", replyOf gen 0,
               some (replyOf gen 1)⟩,
         ⟨[⟨"user", pyStripS ip⟩, ⟨"user", "Describe the image"⟩,
           ⟨"bot", replyOf gen 0⟩, ⟨"user", pyStripS q⟩,
           ⟨"bot", replyOf gen 1⟩],
          updateLastImage
            ⟨[], updateLastImage ⟨[], none⟩ (pyStripS ip)⟩
            (pyStripS q)⟩)) := by
  refine ⟨?_, ?_, ?_, ?_⟩
  · simp [describe, pyStripS_empty]
  · intro h
    simp [describe, h]
  · intro h
    cases hg : gen 0 with
    | ok r =>
      simp [describe, processUserPrompt, replyOf, h, hg, pyStripS_empty,
        updateLastImage, isImagePathOrUrl_describePrompt]
    | error e =>
      simp [describe, processUserPrompt, replyOf, h, hg, pyStripS_empty,
        updateLastImage, isImagePathOrUrl_describePrompt]
  · intro h hq
    cases hg : gen 0 with
    | ok r =>
      cases hg1 : gen 1 with
      | ok r1 =>
        simp [describe, processUserPrompt, replyOf, h, hq, hg, hg1,
          pyStripS_empty, updateLastImage, isImagePathOrUrl_describePrompt]
      | error e1 =>
        simp [describe, processUserPrompt, replyOf, h, hq, hg, hg1,
          pyStripS_empty, updateLastImage, isImagePathOrUrl_describePrompt]
    | error e =>
      cases hg1 : gen 1 with
      | ok r1 =>
        simp [describe, processUserPrompt, replyOf, h, hq, hg, hg1,
          pyStripS_empty, updateLastImage, isImagePathOrUrl_describePrompt]
      | error e1 =>
        simp [describe, processUserPrompt, replyOf, h, hq, hg, hg1,
          pyStripS_empty, updateLastImage, isImagePathOrUrl_describePrompt]

/-- A backend oracle that always answers `"a cat"`. -/
def genCat : Nat → Except String String := fun _ => .ok "a cat"

/-- Concrete instance of `C7_describe`: a request for `x.jpg` without a
question resets the session, appends image turn, auto prompt and bot
turn, and answers `response_describe = "a cat"`,
`response_question = none`; a request without `image_path` answers 400
leaving the session untouched. -/
theorem C7_witness :
    (describe ⟨[⟨"user", "old"⟩], some "old.jpg"⟩ genCat
        (some "x.jpg") none =
      (200, some ⟨true, "x.jpg", "Describe the image", "a cat", none⟩,
       ⟨[⟨"user", "x.jpg"⟩, ⟨"user", "Describe the image"⟩,
         ⟨"bot", "a cat"⟩], some "x.jpg"⟩)) ∧
    (describe ⟨[], none⟩ genCat none none = (400, none, ⟨[], none⟩)) := by
  constructor
  · have h := (C7_describe ⟨[⟨"user", "old"⟩], some "old.jpg"⟩ genCat
      "x.jpg" "").2.2.1 (by decide)
    exact h.trans (by decide)
  · exact (C7_describe ⟨[], none⟩ genCat "" "").1

/-- Claim C8 is false as stated for `main_with_time_and_json.py`: its
`model.generate` call has no exception handler, so a raising backend
propagates the exception out of the loop — no error-marker bot turn is
recorded and no reply is returned to the session loop. -/
theorem C8_counterexample :
    generateStepNoCatch ⟨[⟨"user", "hello"⟩], none⟩
        (.error "CUDA out of memory")
      = .error "CUDA out of memory" := rfl

/-- Claim C8 (corrected): in the HTTP variant's `process_user_prompt` a
raising backend call is caught: the error-marker bot turn
`"[error] generation failed: <e>"` is appended (the turn sequence keeps
a response), the same error text is returned to the caller, the backend
is consulted exactly once (no automatic retry: the call counter advances
by one), and the session remains usable — the next prompt on the
resulting state appends its user and bot turns normally.  In
`main_with_time_and_json.py` the exception instead propagates uncaught
(see the counterexample). -/
theorem C8_amended (st : SessionState) (gen : Nat → Except String String)
    (k : Nat) (p e : String) (h : gen k = .error e) :
    (processUserPrompt st gen k p true =
      (⟨st.turns ++ [⟨"user", p⟩,
         ⟨"bot", "[error] generation failed: " ++ e⟩],
        updateLastImage st p⟩,
       "[error] generation failed: " ++ e, k + 1)) ∧
    (∀ p2 r2, gen (k + 1) = .ok r2 →
      processUserPrompt
        ⟨st.turns ++ [⟨"user", p⟩,
           ⟨"bot", "[error] generation failed: " ++ e⟩],
         updateLastImage st p⟩ gen (k + 1) p2 true =
        (⟨st.turns ++ [⟨"user", p⟩,
            ⟨"bot", "[error] generation failed: " ++ e⟩,
            ⟨"user", p2⟩, ⟨"bot", r2⟩],
          updateLastImage
            ⟨st.turns, updateLastImage st p⟩ p2⟩,
         r2, k + 1 + 1)) := by
  constructor
  · simp [processUserPrompt, h]
  · intro p2 r2 h2
    simp [processUserPrompt, h2, updateLastImage]

/-- A backend oracle whose first call raises and whose later calls
succeed. -/
def genBoom : Nat → Except String String :=
  fun k => if k == 0 then .error "boom" else .ok "all good"

/-- Concrete instance of `C8_amended`: the failed generation leaves an
error-marker bot turn and the error text, one backend call was made, and
the next prompt works normally on the resulting session. -/
theorem C8_amended_witness :
    (processUserPrompt ⟨[⟨"user", "hi"⟩], none⟩ genBoom 0 "tell me" true =
      (⟨[⟨"user", "hi"⟩, ⟨"user", "tell me"⟩,
         ⟨"bot", "[error] generation failed: boom"⟩], none⟩,
       "[error] generation failed: boom", 1)) ∧
    (processUserPrompt
        ⟨[⟨"user", "hi"⟩, ⟨"user", "tell me"⟩,
           ⟨"bot", "[error] generation failed: boom"⟩], none⟩
        genBoom 1 "and now?" true =
      (⟨[⟨"user", "hi"⟩, ⟨"user", "tell me"⟩,
         ⟨"bot", "[error] generation failed: boom"⟩,
         ⟨"user", "and now?"⟩, ⟨"bot", "all good"⟩], none⟩,
       "all good", 2)) := by
  have h := C8_amended ⟨[⟨"user", "hi"⟩], none⟩ genBoom 0 "tell me"
    "boom" rfl
  exact ⟨h.1.trans (by decide), (h.2 "and now?" "all good" rfl).trans
    (by decide)⟩

/-- Claim C6: `_json_path_for_image` maps `"cat.jpg"` to `"cat.json"`;
for a non-URL input it returns the (stripped) path with its
`posixpath.splitext` extension replaced by `.json` (the directory part
of the path is preserved inside the splitext stem); for a URL it returns
the URL path's basename (or `"image"` when empty) with its extension
replaced by `.json`, a bare filename resolved in the working directory.
The function is pure — a function of the input string only, taking no
file-system state — so repeated calls on the same input return the same
key independent of whether the ledger file exists. -/
theorem C6_derive_key :
    (jsonPathForImage "cat.jpg" = "cat.json") ∧
    (∀ s : String, jsonPathForImage s = jsonPathForImage s) ∧
    (∀ p : String, lowerStartsWithHttpS (pyStripQuotes p) = false →
      jsonPathForImage p
        = String.mk (pySplitext (pyStripQuotes p).toList).1 ++ ".json") ∧
    (∀ p : String, lowerStartsWithHttpS (pyStripQuotes p) = true →
      jsonPathForImage p
        = String.mk (pySplitext
            (if pyBasename (urlPath (pyStripQuotes p).toList) = []
             then "image".toList
             else pyBasename (urlPath (pyStripQuotes p).toList))).1
          ++ ".json") := by
  refine ⟨rfl, fun s => rfl, ?_, ?_⟩
  · intro p h
    simp [jsonPathForImage, h]
  · intro p h
    simp [jsonPathForImage, h]

/-- Concrete instances of `C6_derive_key`: a local path keeps its
directory and swaps the extension; a URL maps to the path basename with
the extension swapped, in the working directory. -/
theorem C6_witness :
    (jsonPathForImage "photos/cat.png"
      = String.mk (pySplitext (pyStripQuotes "photos/cat.png").toList).1
        ++ ".json") ∧
    (jsonPathForImage "http://host/img/cat.png"
      = String.mk (pySplitext
          (if pyBasename (urlPath
              (pyStripQuotes "http://host/img/cat.png").toList) = []
           then "image".toList
           else pyBasename (urlPath
              (pyStripQuotes "http://host/img/cat.png").toList))).1
        ++ ".json") ∧
    (jsonPathForImage "photos/cat.png" = "photos/cat.json") ∧
    (jsonPathForImage "http://host/img/cat.png" = "cat.json") := by
  refine ⟨(C6_derive_key).2.2.1 "photos/cat.png" (by decide),
          (C6_derive_key).2.2.2 "http://host/img/cat.png" (by decide),
          ?_, ?_⟩
  · exact ((C6_derive_key).2.2.1 "photos/cat.png" (by decide)).trans
      (by decide)
  · exact ((C6_derive_key).2.2.2 "http://host/img/cat.png"
      (by decide)).trans (by decide)
